import Mathlib

/-!
Shallow embedding of the polypure order-construction and authentication
subsystem (TypeScript) in Lean 4.

Numeric model: the TypeScript source computes over IEEE doubles (`number`);
we embed the arithmetic over exact rationals `ℚ`, with `Math.floor`
modelled by `Int.floor`, `Math.round` by `⌊x + 1/2⌋` (ECMAScript
round-half-up), and `parseFloat(x.toFixed(d))` by round-half-up at `d`
decimal places. Decimal-integer strings (`Number.toString`,
`BigInt.toString`) are modelled by `toString` on `ℤ`/`ℕ`.
-/

/-! ## order-builder/constants.ts -/

/-- `TickSize`: the four supported tick-size string literals
`"0.1" | "0.01" | "0.001" | "0.0001"`. -/
inductive TickSize where
  | oneTenth
  | oneHundredth
  | oneThousandth
  | oneTenThousandth
deriving DecidableEq

/-- `parseFloat(tickSize)`: the numeric value of the tick-size literal. -/
def TickSize.val : TickSize → ℚ
  | .oneTenth => 1 / 10
  | .oneHundredth => 1 / 100
  | .oneThousandth => 1 / 1000
  | .oneTenThousandth => 1 / 10000

/-- `ROUNDING_CONFIG`: decimal places bound to each tick size. -/
def ROUNDING_CONFIG : TickSize → ℕ
  | .oneTenth => 1
  | .oneHundredth => 2
  | .oneThousandth => 3
  | .oneTenThousandth => 4

/-- `COLLATERAL_TOKEN_DECIMALS = 6`. -/
def COLLATERAL_TOKEN_DECIMALS : ℕ := 6

/-- `DEFAULT_FEE_RATE_BPS = 50`. -/
def DEFAULT_FEE_RATE_BPS : ℕ := 50

/-- `DEFAULT_TAKER`: the zero address, meaning a public order. -/
def DEFAULT_TAKER : String := "0x0000000000000000000000000000000000000000"

/-- `EXCHANGE_ADDRESS`: CTF Exchange contract address. -/
def EXCHANGE_ADDRESS : String := "0x4bFb41d5B3570DeFd03C39a9A4D8dE6Bd8B8982E"

/-- `NEG_RISK_EXCHANGE_ADDRESS`: Negative Risk Exchange contract address. -/
def NEG_RISK_EXCHANGE_ADDRESS : String := "0xC5d563A36AE78145C45a50134d48A1215220f80a"

/-- `SignatureType.BROWSER_WALLET = 0`. -/
def SignatureType.BROWSER_WALLET : ℕ := 0

/-- `SignatureType.MAGIC = 1`. -/
def SignatureType.MAGIC : ℕ := 1

/-! ## order-builder/helpers.ts -/

/-- `roundDown(value, decimals)`:
`Math.floor(value * 10^decimals) / 10^decimals`. -/
def roundDown (value : ℚ) (decimals : ℕ) : ℚ :=
  (⌊value * 10 ^ decimals⌋ : ℚ) / 10 ^ decimals

/-- `roundNormal(value, decimals)`:
`Math.round(value * 10^decimals) / 10^decimals`; ECMAScript `Math.round`
is round-half-up, i.e. `⌊x + 1/2⌋`. -/
def roundNormal (value : ℚ) (decimals : ℕ) : ℚ :=
  (⌊value * 10 ^ decimals + 1 / 2⌋ : ℚ) / 10 ^ decimals

/-- `parseFloat(x.toFixed(d))`: ECMAScript `toFixed` rounds to the nearest
multiple of `10^-d`, ties toward the larger value, i.e. `⌊x*10^d + 1/2⌋/10^d`. -/
def toFixedRound (x : ℚ) (d : ℕ) : ℚ :=
  (⌊x * 10 ^ d + 1 / 2⌋ : ℚ) / 10 ^ d

/-- `alignPrice(price, tickSize)`:
`aligned = Math.floor(price / tick) * tick`, then
`parseFloat(aligned.toFixed(decimals))`. -/
def alignPrice (price : ℚ) (tickSize : TickSize) : ℚ :=
  toFixedRound ((⌊price / tickSize.val⌋ : ℚ) * tickSize.val) (ROUNDING_CONFIG tickSize)

/-- The integer produced inside `toChainUnits`:
`Math.floor(amount * 10^COLLATERAL_TOKEN_DECIMALS)`. -/
def toChainUnitsInt (amount : ℚ) : ℤ :=
  ⌊amount * 10 ^ COLLATERAL_TOKEN_DECIMALS⌋

/-- `toChainUnits(amount)`:
`Math.floor(amount * 10^COLLATERAL_TOKEN_DECIMALS).toString()`. -/
def toChainUnits (amount : ℚ) : String :=
  toString (toChainUnitsInt amount)

/-- Return type of the amount calculators:
`{ rawMakerAmt: string; rawTakerAmt: string }`. -/
structure RawAmounts where
  rawMakerAmt : String
  rawTakerAmt : String
deriving DecidableEq

/-- `calculateBuyAmounts(size, price, tickSize)`. -/
def calculateBuyAmounts (size price : ℚ) (tickSize : TickSize) : RawAmounts :=
  let decimals := ROUNDING_CONFIG tickSize
  let alignedPrice := alignPrice price tickSize
  let makerAmount := size * alignedPrice
  let roundedMakerAmount := roundDown makerAmount decimals
  let takerAmount := size
  { rawMakerAmt := toChainUnits roundedMakerAmount
    rawTakerAmt := toChainUnits takerAmount }

/-- `calculateSellAmounts(size, price, tickSize)`. -/
def calculateSellAmounts (size price : ℚ) (tickSize : TickSize) : RawAmounts :=
  let decimals := ROUNDING_CONFIG tickSize
  let alignedPrice := alignPrice price tickSize
  let makerAmount := size
  let takerAmount := size * alignedPrice
  let roundedTakerAmount := roundDown takerAmount decimals
  { rawMakerAmt := toChainUnits makerAmount
    rawTakerAmt := toChainUnits roundedTakerAmount }

/-- `calculateMarketBuyAmounts(amount, price, tickSize)`:
`takerAmount = price > 0 ? amount / price : 0`, rounded down. -/
def calculateMarketBuyAmounts (amount price : ℚ) (tickSize : TickSize) : RawAmounts :=
  let decimals := ROUNDING_CONFIG tickSize
  let makerAmount := amount
  let takerAmount := if 0 < price then amount / price else 0
  let roundedTakerAmount := roundDown takerAmount decimals
  { rawMakerAmt := toChainUnits makerAmount
    rawTakerAmt := toChainUnits roundedTakerAmount }

/-! ## order-builder/builder.ts -/

/-- `CHAIN_ID = 137` (Polygon). -/
def CHAIN_ID : ℕ := 137

/-- Order side, the `"BUY" | "SELL"` string union of `BuildOrderParams.side`. -/
inductive Side where
  | buy
  | sell
deriving DecidableEq

/-- `OrderSide` enum value: `BUY = 0`, `SELL = 1`. -/
def Side.toOrderSide : Side → ℕ
  | .buy => 0
  | .sell => 1

/-- EIP-712 domain; `name`, `version` and `chainId` are fixed by
`ORDER_DOMAIN`, and `verifyingContract` is selected per order. -/
structure OrderDomain where
  name : String
  version : String
  chainId : ℕ
  verifyingContract : String
deriving DecidableEq

/-- `ORDER_DOMAIN` constant. -/
def ORDER_DOMAIN : OrderDomain :=
  { name := "Exchange", version := "1", chainId := CHAIN_ID
    verifyingContract := EXCHANGE_ADDRESS }

/-- The order struct handed to the EIP-712 signing primitive; BigInt fields
are integers, address fields strings. -/
structure OrderStruct where
  salt : ℕ
  maker : String
  signer : String
  taker : String
  tokenId : ℕ
  makerAmount : ℤ
  takerAmount : ℤ
  expiration : ℕ
  nonce : ℕ
  feeRateBps : ℕ
  side : ℕ
  signatureType : ℕ
deriving DecidableEq

/-- `SignedOrder`: the returned wire record, every field a string. -/
structure SignedOrder where
  salt : String
  maker : String
  signer : String
  taker : String
  tokenId : String
  makerAmount : String
  takerAmount : String
  expiration : String
  nonce : String
  feeRateBps : String
  side : String
  signatureType : String
  signature : String
deriving DecidableEq

/-- `BuildOrderParams`. The `signer` argument is modelled by its resolved
address (`getSignerAddress(signer)`); the optional fields are `Option`,
`none` standing for the JS `undefined` that triggers the destructuring
default. `tokenId` and `nonce` carry the numeral denoted by the TS decimal
string (they are fed through `BigInt(...)`). -/
structure BuildOrderParams where
  signerAddress : String
  tokenId : ℕ
  price : ℚ
  size : ℚ
  side : Side
  tickSize : TickSize
  feeRateBps : Option ℕ := none
  nonce : Option ℕ := none
  expiration : Option ℕ := none
  taker : Option String := none
  signatureType : Option ℕ := none
  funderAddress : Option String := none
  negRisk : Option Bool := none
deriving DecidableEq

/-- `BigInt(s)` on a decimal digit string (as produced by `toChainUnits`):
parse the digits. -/
def parseDecDigits (s : List Char) : ℕ :=
  s.foldl (fun acc c => acc * 10 + (c.toNat - 48)) 0

/-- `BigInt(s)` on a decimal-integer string, optionally signed. -/
def parseBigInt (s : String) : ℤ :=
  match s.data with
  | '-' :: rest => -(parseDecDigits rest : ℤ)
  | l => (parseDecDigits l : ℤ)

/-- `makerAddress = funderAddress || signerAddress`: JS `||` also falls
back on the empty string, which is falsy. -/
def resolveMakerAddress (funderAddress : Option String) (signerAddress : String) : String :=
  match funderAddress with
  | some f => if f = "" then signerAddress else f
  | none => signerAddress

/-- The order struct assembled inside `buildSignedOrder`, given the two
random 256-bit values (`generateSalt()` results) and the module-load
constant `DEFAULT_EXPIRATION` as explicit inputs. `nonce || generateSalt()`
is modelled by `Option.getD` (a TS nonce string `""` is not representable
in the numeral model). -/
def buildOrderStruct (defaultExpiration salt genNonce : ℕ)
    (params : BuildOrderParams) : OrderStruct :=
  let feeRateBps := params.feeRateBps.getD DEFAULT_FEE_RATE_BPS
  let expiration := params.expiration.getD defaultExpiration
  let taker := params.taker.getD DEFAULT_TAKER
  let signatureType := params.signatureType.getD SignatureType.MAGIC
  let signerAddress := params.signerAddress
  let makerAddress := resolveMakerAddress params.funderAddress signerAddress
  let alignedPrice := alignPrice params.price params.tickSize
  let amounts :=
    match params.side with
    | .buy => calculateBuyAmounts params.size alignedPrice params.tickSize
    | .sell => calculateSellAmounts params.size alignedPrice params.tickSize
  let orderNonce := params.nonce.getD genNonce
  { salt := salt
    maker := makerAddress
    signer := signerAddress
    taker := taker
    tokenId := params.tokenId
    makerAmount := parseBigInt amounts.rawMakerAmt
    takerAmount := parseBigInt amounts.rawTakerAmt
    expiration := expiration
    nonce := orderNonce
    feeRateBps := feeRateBps
    side := params.side.toOrderSide
    signatureType := signatureType }

/-- The EIP-712 domain selected inside `buildSignedOrder`:
`{ ...ORDER_DOMAIN, verifyingContract: negRisk ? NEG_RISK_EXCHANGE_ADDRESS
: EXCHANGE_ADDRESS }`. -/
def buildOrderDomain (params : BuildOrderParams) : OrderDomain :=
  { ORDER_DOMAIN with
    verifyingContract :=
      if params.negRisk.getD false then NEG_RISK_EXCHANGE_ADDRESS else EXCHANGE_ADDRESS }

/-- `buildSignedOrder(params)`: the EIP-712 signing primitive
(`signOrder`, viem `signTypedData`) is an oracle parameter `sign`; the two
`generateSalt()` randoms and `DEFAULT_EXPIRATION` are explicit inputs. -/
def buildSignedOrder (sign : OrderDomain → OrderStruct → String)
    (defaultExpiration salt genNonce : ℕ) (params : BuildOrderParams) : SignedOrder :=
  let amounts :=
    match params.side with
    | .buy => calculateBuyAmounts params.size (alignPrice params.price params.tickSize) params.tickSize
    | .sell => calculateSellAmounts params.size (alignPrice params.price params.tickSize) params.tickSize
  let order := buildOrderStruct defaultExpiration salt genNonce params
  let signature := sign (buildOrderDomain params) order
  { salt := toString salt
    maker := order.maker
    signer := order.signer
    taker := params.taker.getD DEFAULT_TAKER
    tokenId := toString params.tokenId
    makerAmount := amounts.rawMakerAmt
    takerAmount := amounts.rawTakerAmt
    expiration := toString (params.expiration.getD defaultExpiration)
    nonce := toString (params.nonce.getD genNonce)
    feeRateBps := toString (params.feeRateBps.getD DEFAULT_FEE_RATE_BPS)
    side := toString params.side.toOrderSide
    signatureType := toString (params.signatureType.getD SignatureType.MAGIC)
    signature := signature }
/-! ## auth/credentials.ts -/

/-- `ApiCredentials`: the `{key, secret, passphrase}` triple. -/
structure ApiCredentials where
  key : String
  secret : String
  passphrase : String
deriving DecidableEq

/-- The two remote operations of the credential lifecycle. -/
inductive CredCall where
  | create
  | derive
deriving DecidableEq

/-- `createOrDeriveApiKey(host, signer)`: the two network operations
`createApiKey` / `deriveApiKey` are oracles, given by their outcomes;
the `try { create } catch { derive }` control flow is the match. -/
def createOrDeriveApiKey (createResult deriveResult : Except String ApiCredentials) :
    Except String ApiCredentials :=
  match createResult with
  | .ok creds => .ok creds
  | .error _ => deriveResult

/-- `createOrDeriveApiKey` instrumented with the list of remote calls it
performs, in order. -/
def createOrDeriveApiKeyTrace (createResult deriveResult : Except String ApiCredentials) :
    Except String ApiCredentials × List CredCall :=
  match createResult with
  | .ok creds => (.ok creds, [.create])
  | .error _ => (deriveResult, [.create, .derive])

/-- Modelled from the spec: one entry of the credential cache (the cache
implementation lives in the client layer of the repository, which is not
present under src/; the repository docs state credentials are "cached for
1 minute" and "the cache supports up to 10 different wallets"). -/
structure CredCacheEntry where
  address : String
  creds : ApiCredentials
  insertedAt : ℕ
deriving DecidableEq

/-- Modelled from the spec: the process-wide credential cache, entries in
most-recently-used-first order. -/
structure CredCache where
  entries : List CredCacheEntry
deriving DecidableEq

/-- Modelled from the spec: the fixed expiry window, 60 seconds. -/
def CREDENTIAL_CACHE_TTL : ℕ := 60

/-- Modelled from the spec: the bounded capacity, 10 distinct addresses. -/
def CREDENTIAL_CACHE_CAPACITY : ℕ := 10

/-- Modelled from the spec: look up a non-expired cache entry for a wallet
address at time `now` (seconds). -/
def findFresh (cache : CredCache) (address : String) (now : ℕ) : Option CredCacheEntry :=
  cache.entries.find? (fun e => e.address == address && decide (now < e.insertedAt + CREDENTIAL_CACHE_TTL))

/-- Modelled from the spec: the cached credential lookup wrapped around
`createOrDeriveApiKey`. The network round (create-or-derive) is the oracle
`fetchResult`; the returned `Bool` records whether any network request was
performed. A hit moves the entry to the front (least-recently-used order);
a miss inserts at the front and truncates to the capacity. -/
def getCachedCredentials (cache : CredCache) (address : String) (now : ℕ)
    (fetchResult : Except String ApiCredentials) :
    Except String ApiCredentials × CredCache × Bool :=
  match findFresh cache address now with
  | some e =>
      (Except.ok e.creds,
       { entries := e :: cache.entries.filter (fun x => x.address != address) },
       false)
  | none =>
      match fetchResult with
      | .ok creds =>
          (Except.ok creds,
           { entries := (CredCacheEntry.mk address creds now ::
               cache.entries.filter (fun x => x.address != address)).take CREDENTIAL_CACHE_CAPACITY },
           true)
      | .error err => (Except.error err, cache, true)

/-! ## auth/hmac.ts -/

/-- The standard base64 alphabet used by `btoa`/`atob`. -/
def base64Alphabet : List Char :=
  "ABCDEFGHIJKLMNOPQRSTUVWXYZabcdefghijklmnopqrstuvwxyz0123456789+/".data

/-- `btoa` on a byte list (each byte `< 256`): standard base64 with `=`
padding, three bytes to four characters. -/
def base64EncodeChunks : List ℕ → List Char
  | [] => []
  | [b1] =>
      let n := b1 * 65536
      [base64Alphabet.getD (n / 262144) 'A', base64Alphabet.getD (n / 4096 % 64) 'A', '=', '=']
  | [b1, b2] =>
      let n := b1 * 65536 + b2 * 256
      [base64Alphabet.getD (n / 262144) 'A', base64Alphabet.getD (n / 4096 % 64) 'A',
       base64Alphabet.getD (n / 64 % 64) 'A', '=']
  | b1 :: b2 :: b3 :: rest =>
      let n := b1 * 65536 + b2 * 256 + b3
      base64Alphabet.getD (n / 262144) 'A' ::
      base64Alphabet.getD (n / 4096 % 64) 'A' ::
      base64Alphabet.getD (n / 64 % 64) 'A' ::
      base64Alphabet.getD (n % 64) 'A' ::
      base64EncodeChunks rest

/-- The plain base64 string (as a character list) built inside
`bytesToBase64UrlSafe` before the URL-safe substitution. -/
def bytesToBase64 (bytes : List ℕ) : List Char :=
  base64EncodeChunks bytes

/-- The character substitution of
`base64.replace(/\+/g, "-").replace(/\//g, "_")`: both patterns are single
characters, so the two global replaces act character-wise. -/
def urlSafeChar (c : Char) : Char :=
  if c = '+' then '-' else if c = '/' then '_' else c

/-- `bytesToBase64UrlSafe(bytes)`: base64-encode, then substitute
`+` with `-` and `/` with `_`, keeping `=` padding. -/
def bytesToBase64UrlSafe (bytes : List ℕ) : String :=
  String.mk ((bytesToBase64 bytes).map urlSafeChar)

/-- The value of a base64 alphabet character (`indexOf`). -/
def b64CharVal (c : Char) : ℕ :=
  base64Alphabet.indexOf c

/-- The URL-safe-to-standard normalisation inside `base64ToBytes`: replace
every `-` with `+` and every `_` with `/` (both global regexes are single
characters, so they act character-wise). -/
def base64Normalize (s : String) : List Char :=
  s.data.map (fun c => if c = '-' then '+' else if c = '_' then '/' else c)

/-- The padding loop inside `base64ToBytes`: append `=` until the length
is a multiple of 4. -/
def padBase64 (l : List Char) : List Char :=
  l ++ List.replicate ((4 - l.length % 4) % 4) '='

/-- `atob` plus `charCodeAt` extraction: four base64 characters to three
bytes, `=` padding shortening the final group. -/
def base64DecodeChunks : List Char → List ℕ
  | c1 :: c2 :: c3 :: c4 :: rest =>
      let n := b64CharVal c1 * 262144 + b64CharVal c2 * 4096 +
               (if c3 = '=' then 0 else b64CharVal c3 * 64) +
               (if c4 = '=' then 0 else b64CharVal c4)
      if c3 = '=' then [n / 65536]
      else if c4 = '=' then [n / 65536, n / 256 % 256]
      else n / 65536 :: n / 256 % 256 :: n % 256 :: base64DecodeChunks rest
  | _ => []

/-- `base64ToBytes(base64)`: normalise URL-safe characters, pad, decode. -/
def base64ToBytes (base64 : String) : List ℕ :=
  base64DecodeChunks (padBase64 (base64Normalize base64))

/-- `signHmac(message, secret)`: the keyed-hash primitive
(`crypto.subtle.sign("HMAC", ...)` over the `TextEncoder` UTF-8 encoding
of the message) is the oracle `hmacSha256`, mapping the decoded key bytes
and the message to the 32-byte digest. -/
def signHmac (hmacSha256 : List ℕ → String → List ℕ) (message secret : String) : String :=
  bytesToBase64UrlSafe (hmacSha256 (base64ToBytes secret) message)

/-! ## auth/headers.ts -/

/-- `buildL2Message(timestamp, method, requestPath, body)`:
the template string
`timestamp ++ method.toUpperCase() ++ requestPath ++ (body || "")`;
`body || ""` yields `""` both for `undefined` and for the falsy empty
string, i.e. `Option.getD body ""`. -/
def buildL2Message (timestamp : ℕ) (method requestPath : String) (body : Option String) : String :=
  toString timestamp ++ method.toUpper ++ requestPath ++ body.getD ""

/-- `L2Headers`. -/
structure L2Headers where
  POLY_ADDRESS : String
  POLY_SIGNATURE : String
  POLY_TIMESTAMP : String
  POLY_API_KEY : String
  POLY_PASSPHRASE : String
deriving DecidableEq

/-- `createL2Headers(address, creds, method, requestPath, body?, timestamp?)`:
`now` models the wall-clock read `Math.floor(Date.now() / 1000)`;
`timestamp || now` also falls back when a (falsy) timestamp `0` is passed. -/
def createL2Headers (hmacSha256 : List ℕ → String → List ℕ) (address : String)
    (creds : ApiCredentials) (method requestPath : String)
    (body : Option String) (timestamp : Option ℕ) (now : ℕ) : L2Headers :=
  let ts := match timestamp with
    | some t => if t = 0 then now else t
    | none => now
  let message := buildL2Message ts method requestPath body
  let signature := signHmac hmacSha256 message creds.secret
  { POLY_ADDRESS := address
    POLY_SIGNATURE := signature
    POLY_TIMESTAMP := toString ts
    POLY_API_KEY := creds.key
    POLY_PASSPHRASE := creds.passphrase }

/-! ## Concrete values used by witnesses and counterexamples -/

/-- A concrete EIP-712 signing oracle. -/
def signUnused : OrderDomain → OrderStruct → String := fun _ _ => "0xsig"

/-- Concrete order parameters without a funder override. -/
def paramsBase : BuildOrderParams :=
  { signerAddress := "0xSignerAddress", tokenId := 7, price := 13/20, size := 100
    side := .buy, tickSize := .oneHundredth }

/-- Concrete order parameters with an empty-string funder override. -/
def paramsEmptyFunder : BuildOrderParams :=
  { paramsBase with funderAddress := some "" }

/-- Concrete credentials. -/
def credsA : ApiCredentials := { key := "keyA", secret := "c2VjcmV0QQ==", passphrase := "passA" }

/-- Concrete credentials. -/
def credsB : ApiCredentials := { key := "keyB", secret := "c2VjcmV0Qg==", passphrase := "passB" }

/-- A concrete one-entry credential cache: `credsA` for address `0xA`,
inserted at second 100. -/
def cache0 : CredCache := { entries := [CredCacheEntry.mk "0xA" credsA 100] }

/-- A concrete HMAC oracle returning an all-zero 32-byte digest. -/
def hmacZeros : List ℕ → String → List ℕ := fun _ _ => List.replicate 32 0

/-! ## Helper lemmas -/

/-- Each tick size times ten to its decimal count is one. -/
theorem tick_val_mul_pow (t : TickSize) :
    TickSize.val t * 10 ^ ROUNDING_CONFIG t = 1 := by
  cases t <;> norm_num [TickSize.val, ROUNDING_CONFIG]

/-- Tick sizes are nonzero. -/
theorem tick_val_ne_zero (t : TickSize) : TickSize.val t ≠ 0 := by
  cases t <;> norm_num [TickSize.val]

/-- Tick sizes are the reciprocals of ten to their decimal count. -/
theorem tick_val_eq_inv_pow (t : TickSize) :
    TickSize.val t = 1 / 10 ^ ROUNDING_CONFIG t := by
  rw [eq_div_iff (by positivity)]
  exact tick_val_mul_pow t

/-- `alignPrice` computes the floored tick multiple exactly: the final
`toFixed` re-rounding is the identity on an exact tick multiple. -/
theorem alignPrice_eq_floor_mul (p : ℚ) (t : TickSize) :
    alignPrice p t = (⌊p / t.val⌋ : ℚ) * t.val := by
  unfold alignPrice toFixedRound
  rw [mul_assoc, tick_val_mul_pow, mul_one]
  have h2 : (⌊(⌊p / t.val⌋ : ℚ) + 1 / 2⌋ : ℤ) = ⌊p / t.val⌋ := by
    rw [Int.floor_int_add]
    norm_num
  rw [h2, tick_val_eq_inv_pow]
  ring

/-- `urlSafeChar` never outputs a plus or a slash. -/
theorem urlSafeChar_ne_plus_slash (c : Char) :
    urlSafeChar c ≠ '+' ∧ urlSafeChar c ≠ '/' := by
  unfold urlSafeChar
  by_cases h1 : c = '+'
  · simp [h1]
  · by_cases h2 : c = '/'
    · simp [h1, h2]
    · simp only [if_neg h1, if_neg h2]
      exact ⟨h1, h2⟩

/-- `urlSafeChar` maps a character to the padding character `=` exactly
when it is `=`. -/
theorem urlSafeChar_eq_pad_iff (c : Char) : urlSafeChar c = '=' ↔ c = '=' := by
  unfold urlSafeChar
  by_cases h1 : c = '+'
  · simp [h1]
  · by_cases h2 : c = '/'
    · simp [h1, h2]
    · simp [h1, h2]

/-- The URL-safe substitution preserves the number of `=` characters. -/
theorem count_pad_map_urlSafeChar (l : List Char) :
    (l.map urlSafeChar).count '=' = l.count '=' := by
  induction l with
  | nil => rfl
  | cons a rest ih =>
      have hiff : (urlSafeChar a = '=') = (a = '=') :=
        propext (urlSafeChar_eq_pad_iff a)
      simp [List.count_cons, ih, hiff]

/-! ## Claim theorems -/

/-- C3: for every value `x` and decimal count `d`,
`roundDown x d ≤ x` — rounding down never rounds up. -/
theorem roundDown_le (x : ℚ) (d : ℕ) : roundDown x d ≤ x := by
  unfold roundDown
  rw [div_le_iff₀ (by positivity)]
  exact Int.floor_le _

/-- C5: `alignPrice` is idempotent for every price and every tick size. -/
theorem alignPrice_idempotent (p : ℚ) (t : TickSize) :
    alignPrice (alignPrice p t) t = alignPrice p t := by
  rw [alignPrice_eq_floor_mul p t, alignPrice_eq_floor_mul]
  rw [mul_div_cancel_right₀ _ (tick_val_ne_zero t), Int.floor_intCast]

/-- C1: for size ≥ 0, price in [0,1] and any tick size,
`calculateBuyAmounts` returns `makerAmount = floor(size * alignedPrice,
tickDecimals)` and `takerAmount = size`, both converted to base units by
multiplying by `10^6` and truncating; in particular for size 100,
price 0.65, tick 0.01 it returns maker `"65000000"`, taker `"100000000"`. -/
theorem calculateBuyAmounts_spec :
    (∀ (size price : ℚ) (t : TickSize), 0 ≤ size → 0 ≤ price → price ≤ 1 →
      calculateBuyAmounts size price t =
        { rawMakerAmt := toChainUnits (roundDown (size * alignPrice price t) (ROUNDING_CONFIG t))
          rawTakerAmt := toChainUnits size })
    ∧ calculateBuyAmounts 100 (65/100) TickSize.oneHundredth =
        { rawMakerAmt := "65000000", rawTakerAmt := "100000000" } := by
  constructor
  · exact fun _ _ _ _ _ _ => rfl
  · unfold calculateBuyAmounts alignPrice toFixedRound roundDown toChainUnits toChainUnitsInt
    norm_num [TickSize.val, ROUNDING_CONFIG, COLLATERAL_TOKEN_DECIMALS, RawAmounts.mk.injEq]
    exact ⟨rfl, rfl⟩

/-- Witness for C1 at size 3, price 1/2, tick 0.01. -/
theorem calculateBuyAmounts_spec_witness :
    calculateBuyAmounts 3 (1/2) TickSize.oneHundredth =
      { rawMakerAmt := toChainUnits (roundDown (3 * alignPrice (1/2) TickSize.oneHundredth)
          (ROUNDING_CONFIG TickSize.oneHundredth))
        rawTakerAmt := toChainUnits 3 } :=
  calculateBuyAmounts_spec.1 3 (1/2) TickSize.oneHundredth
    (by norm_num) (by norm_num) (by norm_num)

/-- C2: `calculateSellAmounts` mirrors `calculateBuyAmounts` with the two
legs swapped: `makerAmount = size` exact, `takerAmount = floor(size *
alignedPrice, tickDecimals)`, both in base units; in particular for
size 100, price 0.65, tick 0.01 it returns maker `"100000000"`,
taker `"65000000"`. -/
theorem calculateSellAmounts_spec :
    (∀ (size price : ℚ) (t : TickSize), 0 ≤ size → 0 ≤ price → price ≤ 1 →
      calculateSellAmounts size price t =
        { rawMakerAmt := toChainUnits size
          rawTakerAmt := toChainUnits (roundDown (size * alignPrice price t) (ROUNDING_CONFIG t)) }
      ∧ (calculateSellAmounts size price t).rawMakerAmt = (calculateBuyAmounts size price t).rawTakerAmt
      ∧ (calculateSellAmounts size price t).rawTakerAmt = (calculateBuyAmounts size price t).rawMakerAmt)
    ∧ calculateSellAmounts 100 (65/100) TickSize.oneHundredth =
        { rawMakerAmt := "100000000", rawTakerAmt := "65000000" } := by
  constructor
  · exact fun _ _ _ _ _ _ => ⟨rfl, rfl, rfl⟩
  · unfold calculateSellAmounts alignPrice toFixedRound roundDown toChainUnits toChainUnitsInt
    norm_num [TickSize.val, ROUNDING_CONFIG, COLLATERAL_TOKEN_DECIMALS, RawAmounts.mk.injEq]
    exact ⟨rfl, rfl⟩

/-- Witness for C2 at size 3, price 1/2, tick 0.01. -/
theorem calculateSellAmounts_spec_witness :
    calculateSellAmounts 3 (1/2) TickSize.oneHundredth =
      { rawMakerAmt := toChainUnits 3
        rawTakerAmt := toChainUnits (roundDown (3 * alignPrice (1/2) TickSize.oneHundredth)
          (ROUNDING_CONFIG TickSize.oneHundredth)) } :=
  (calculateSellAmounts_spec.1 3 (1/2) TickSize.oneHundredth
    (by norm_num) (by norm_num) (by norm_num)).1

/-- C4: `calculateMarketBuyAmounts` returns the budget exactly as the
maker leg; for a positive price the taker leg is `floor(budget / price,
tickDecimals)` in base units, and for price zero it is `"0"` rather than
an error; in particular budget 100 at price 0.5 gives maker `"100000000"`,
taker `"200000000"`. -/
theorem calculateMarketBuyAmounts_spec :
    (∀ (amount price : ℚ) (t : TickSize),
      (calculateMarketBuyAmounts amount price t).rawMakerAmt = toChainUnits amount)
    ∧ (∀ (amount price : ℚ) (t : TickSize), 0 < price →
      (calculateMarketBuyAmounts amount price t).rawTakerAmt =
        toChainUnits (roundDown (amount / price) (ROUNDING_CONFIG t)))
    ∧ (∀ (amount : ℚ) (t : TickSize),
      (calculateMarketBuyAmounts amount 0 t).rawTakerAmt = "0")
    ∧ calculateMarketBuyAmounts 100 (1/2) TickSize.oneHundredth =
        { rawMakerAmt := "100000000", rawTakerAmt := "200000000" } := by
  refine ⟨fun _ _ _ => rfl, fun amount price t h => ?_, fun amount t => ?_, ?_⟩
  · show toChainUnits (roundDown (if 0 < price then amount / price else 0) (ROUNDING_CONFIG t)) = _
    rw [if_pos h]
  · show toChainUnits (roundDown (if (0:ℚ) < 0 then amount / 0 else 0) (ROUNDING_CONFIG t)) = _
    rw [if_neg (lt_irrefl 0)]
    unfold toChainUnits toChainUnitsInt roundDown
    norm_num
    rfl
  · unfold calculateMarketBuyAmounts roundDown toChainUnits toChainUnitsInt
    norm_num [ROUNDING_CONFIG, COLLATERAL_TOKEN_DECIMALS, RawAmounts.mk.injEq]
    exact ⟨rfl, rfl⟩

/-- Witness for C4 at budget 7, price 1/4, tick 0.01. -/
theorem calculateMarketBuyAmounts_spec_witness :
    (calculateMarketBuyAmounts 7 (1/4) TickSize.oneHundredth).rawTakerAmt =
      toChainUnits (roundDown (7 / (1/4)) (ROUNDING_CONFIG TickSize.oneHundredth)) :=
  calculateMarketBuyAmounts_spec.2.1 7 (1/4) TickSize.oneHundredth (by norm_num)

/-- C6 counterexample: a supplied funder override that is the (falsy)
empty string does not become the maker — `funderAddress || signerAddress`
falls back to the signer address, so the maker does not equal the
supplied override. -/
theorem buildSignedOrder_empty_funder_counterexample :
    paramsEmptyFunder.funderAddress = some ""
    ∧ (buildSignedOrder signUnused 1000 1 2 paramsEmptyFunder).maker ≠ ""
    ∧ (buildSignedOrder signUnused 1000 1 2 paramsEmptyFunder).maker = "0xSignerAddress" := by
  refine ⟨rfl, ?_, rfl⟩
  show ("0xSignerAddress" : String) ≠ ""
  decide

/-- C6 (amended): the returned order's signer field is always the
signer's own address, even with a funder override present; the maker
field equals a supplied non-empty funder override and the signer's own
address otherwise (an empty-string override, being falsy, is treated as
absent); and changing only the funder override changes only the maker
field of the assembled order struct, never the signer field. -/
theorem buildSignedOrder_addresses :
    ∀ (sign : OrderDomain → OrderStruct → String) (defaultExpiration salt genNonce : ℕ)
      (params : BuildOrderParams),
    (buildSignedOrder sign defaultExpiration salt genNonce params).signer = params.signerAddress
    ∧ (∀ f : String, f ≠ "" →
        (buildSignedOrder sign defaultExpiration salt genNonce
          { params with funderAddress := some f }).maker = f)
    ∧ (buildSignedOrder sign defaultExpiration salt genNonce
        { params with funderAddress := none }).maker = params.signerAddress
    ∧ (buildSignedOrder sign defaultExpiration salt genNonce
        { params with funderAddress := some "" }).maker = params.signerAddress
    ∧ (∀ funder : Option String,
        buildOrderStruct defaultExpiration salt genNonce { params with funderAddress := funder } =
          { buildOrderStruct defaultExpiration salt genNonce params with
              maker := resolveMakerAddress funder params.signerAddress }) := by
  intro sign defaultExpiration salt genNonce params
  refine ⟨rfl, fun f hf => ?_, rfl, ?_, fun funder => rfl⟩
  · show (if f = "" then params.signerAddress else f) = f
    rw [if_neg hf]
  · show (if ("" : String) = "" then params.signerAddress else "") = params.signerAddress
    rw [if_pos rfl]

/-- Witness for C6 (amended) at a concrete non-empty funder override. -/
theorem buildSignedOrder_addresses_witness :
    (buildSignedOrder signUnused 1000 1 2
      { paramsBase with funderAddress := some "0xFunder" }).maker = "0xFunder" :=
  (buildSignedOrder_addresses signUnused 1000 1 2 paramsBase).2.1 "0xFunder" (by decide)

/-- C7 (modelled from the spec): credentials are cached keyed by wallet
address with a 60-second expiry window and a capacity of 10 entries with
least-recently-used eviction, and a call whose address hits the cache
performs no network request at all and returns the cached triple. -/
theorem credentialCache_policy :
    (∀ (cache : CredCache) (address : String) (now : ℕ)
       (fetchResult : Except String ApiCredentials) (e : CredCacheEntry),
      findFresh cache address now = some e →
      getCachedCredentials cache address now fetchResult =
        (Except.ok e.creds,
         { entries := e :: cache.entries.filter (fun x => x.address != address) },
         false))
    ∧ (∀ (cache : CredCache) (address : String) (now : ℕ)
         (fetchResult : Except String ApiCredentials),
        cache.entries.length ≤ CREDENTIAL_CACHE_CAPACITY →
        (getCachedCredentials cache address now fetchResult).2.1.entries.length ≤
          CREDENTIAL_CACHE_CAPACITY)
    ∧ (∀ (cache : CredCache) (address : String) (now : ℕ),
        (∀ e ∈ cache.entries, e.address = address → e.insertedAt + CREDENTIAL_CACHE_TTL ≤ now) →
        findFresh cache address now = none)
    ∧ (∀ (cache : CredCache) (address : String) (now : ℕ) (e : CredCacheEntry),
        findFresh cache address now = some e →
        e.address = address ∧ now < e.insertedAt + CREDENTIAL_CACHE_TTL) := by
  refine ⟨?_, ?_, ?_, ?_⟩
  · intro cache address now fetchResult e h
    unfold getCachedCredentials
    rw [h]
  · intro cache address now fetchResult hlen
    unfold getCachedCredentials
    cases hf : findFresh cache address now with
    | some e =>
        have hmem : e ∈ cache.entries := List.mem_of_find?_eq_some hf
        have hpred := List.find?_some hf
        have haddr : e.address == address := by
          exact (Bool.and_elim_left hpred)
        have hfails : ¬((fun x => x.address != address) e = true) := by
          simp [bne_iff_ne]
          exact eq_of_beq haddr
        have hlt : (cache.entries.filter (fun x => x.address != address)).length <
            cache.entries.length :=
          List.length_filter_lt_length_iff_exists.mpr ⟨e, hmem, hfails⟩
        simp only [List.length_cons]
        omega
    | none =>
        cases fetchResult with
        | ok creds =>
            simp only
            calc ((CredCacheEntry.mk address creds now ::
                    cache.entries.filter (fun x => x.address != address)).take
                      CREDENTIAL_CACHE_CAPACITY).length
                ≤ CREDENTIAL_CACHE_CAPACITY := List.length_take_le _ _
        | error err => exact hlen
  · intro cache address now h
    unfold findFresh
    rw [List.find?_eq_none]
    intro x hx
    simp only [Bool.and_eq_true, beq_iff_eq, decide_eq_true_eq, not_and]
    intro haddr
    exact not_lt.mpr (h x hx haddr)
  · intro cache address now e h
    have hpred := List.find?_some h
    simp only [Bool.and_eq_true, beq_iff_eq, decide_eq_true_eq] at hpred
    exact hpred

/-- Witness for C7 on the concrete one-entry cache `cache0`. -/
theorem credentialCache_policy_witness :
    getCachedCredentials cache0 "0xA" 130 (Except.error "down") =
      (Except.ok (CredCacheEntry.mk "0xA" credsA 100).creds,
       { entries := CredCacheEntry.mk "0xA" credsA 100 ::
           cache0.entries.filter (fun x => x.address != "0xA") },
       false)
    ∧ (getCachedCredentials cache0 "0xB" 130 (Except.ok credsB)).2.1.entries.length ≤
        CREDENTIAL_CACHE_CAPACITY
    ∧ findFresh cache0 "0xA" 200 = none
    ∧ ((CredCacheEntry.mk "0xA" credsA 100).address = "0xA"
       ∧ 130 < (CredCacheEntry.mk "0xA" credsA 100).insertedAt + CREDENTIAL_CACHE_TTL) :=
  ⟨credentialCache_policy.1 cache0 "0xA" 130 (Except.error "down") _ (by decide),
   credentialCache_policy.2.1 cache0 "0xB" 130 (Except.ok credsB) (by decide),
   credentialCache_policy.2.2.1 cache0 "0xA" 200 (by decide),
   credentialCache_policy.2.2.2 cache0 "0xA" 130 _ (by decide)⟩

/-- C8: `createOrDeriveApiKey` attempts create first; on create success it
returns create's triple having made only the create call; on any create
failure it falls back to derive exactly once, returning derive's triple on
success and propagating derive's failure with no further retry. -/
theorem createOrDeriveApiKey_fallback :
    (∀ (creds : ApiCredentials) (deriveResult : Except String ApiCredentials),
      createOrDeriveApiKey (Except.ok creds) deriveResult = Except.ok creds)
    ∧ (∀ (err : String) (creds : ApiCredentials),
      createOrDeriveApiKey (Except.error err) (Except.ok creds) = Except.ok creds)
    ∧ (∀ (err deriveErr : String),
      createOrDeriveApiKey (Except.error err) (Except.error deriveErr) = Except.error deriveErr)
    ∧ (∀ (creds : ApiCredentials) (deriveResult : Except String ApiCredentials),
      (createOrDeriveApiKeyTrace (Except.ok creds) deriveResult).2 = [CredCall.create])
    ∧ (∀ (err : String) (deriveResult : Except String ApiCredentials),
      (createOrDeriveApiKeyTrace (Except.error err) deriveResult).2 =
        [CredCall.create, CredCall.derive])
    ∧ (∀ (createResult deriveResult : Except String ApiCredentials),
      (createOrDeriveApiKeyTrace createResult deriveResult).1 =
        createOrDeriveApiKey createResult deriveResult) := by
  refine ⟨fun _ _ => rfl, fun _ _ => rfl, fun _ _ => rfl, fun _ _ => rfl, fun _ _ => rfl, ?_⟩
  intro createResult deriveResult
  cases createResult <;> rfl

/-- C9: the L2 signature is computed over
`timestampSeconds ++ METHOD(uppercased) ++ path ++ body-or-empty`, and the
returned signature is the base64 encoding of the HMAC-SHA256 digest with
every `+` replaced by `-` and every `/` by `_`, `=` padding preserved, so
the output never contains `+` or `/`. -/
theorem signHmac_url_safe_format :
    (∀ (ts : ℕ) (method requestPath : String) (body : Option String),
      buildL2Message ts method requestPath body =
        toString ts ++ method.toUpper ++ requestPath ++ body.getD "")
    ∧ (∀ (hmacSha256 : List ℕ → String → List ℕ) (message secret : String),
      signHmac hmacSha256 message secret =
        String.mk ((bytesToBase64 (hmacSha256 (base64ToBytes secret) message)).map urlSafeChar))
    ∧ (∀ (hmacSha256 : List ℕ → String → List ℕ) (address : String) (creds : ApiCredentials)
         (method requestPath : String) (body : Option String) (timestamp : Option ℕ) (now : ℕ),
      (createL2Headers hmacSha256 address creds method requestPath body timestamp now).POLY_SIGNATURE =
        signHmac hmacSha256
          (buildL2Message
            (match timestamp with | some t => if t = 0 then now else t | none => now)
            method requestPath body)
          creds.secret)
    ∧ (∀ (hmacSha256 : List ℕ → String → List ℕ) (message secret : String) (c : Char),
      c ∈ (signHmac hmacSha256 message secret).data → c ≠ '+' ∧ c ≠ '/')
    ∧ (∀ bytes : List ℕ,
      ((bytesToBase64 bytes).map urlSafeChar).count '=' = (bytesToBase64 bytes).count '=') := by
  refine ⟨fun _ _ _ _ => rfl, fun _ _ _ => rfl, fun _ _ _ _ _ _ _ _ => rfl, ?_,
    fun bytes => count_pad_map_urlSafeChar (bytesToBase64 bytes)⟩
  intro hmacSha256 message secret c hc
  have hc2 : c ∈ (bytesToBase64 (hmacSha256 (base64ToBytes secret) message)).map urlSafeChar := hc
  obtain ⟨a, _, ha⟩ := List.mem_map.mp hc2
  exact ha ▸ urlSafeChar_ne_plus_slash a

/-- Witness for C9: a character of a concrete signature is neither `+`
nor `/`. -/
theorem signHmac_url_safe_format_witness :
    'A' ∈ (signHmac hmacZeros "1700000000GET/markets" "c2VjcmV0QQ==").data
    ∧ (('A' : Char) ≠ '+' ∧ ('A' : Char) ≠ '/') :=
  ⟨by decide,
   signHmac_url_safe_format.2.2.2.1 hmacZeros "1700000000GET/markets" "c2VjcmV0QQ==" 'A'
     (by decide)⟩

/-- C10: an empty-string body and an absent body produce the same L2
message and the same L2 headers (same timestamp and credentials). -/
theorem buildL2Message_empty_body :
    (∀ (ts : ℕ) (method requestPath : String),
      buildL2Message ts method requestPath (some "") =
        buildL2Message ts method requestPath none)
    ∧ (∀ (hmacSha256 : List ℕ → String → List ℕ) (address : String) (creds : ApiCredentials)
         (method requestPath : String) (timestamp : Option ℕ) (now : ℕ),
      createL2Headers hmacSha256 address creds method requestPath (some "") timestamp now =
        createL2Headers hmacSha256 address creds method requestPath none timestamp now) :=
  ⟨fun _ _ _ => rfl, fun _ _ _ _ _ _ _ => rfl⟩
